import Mathlib

/-!
Verification development for the l2tp-manager repository.

We give a shallow embedding of the lifecycle orchestrator
(`internal/services/l2tp.go`), the Xray forwarder registry and health
monitor (`internal/services/routing.go`), and the SSH remote start
sequence (`internal/services/ssh.go`), and prove properties of the
embedded operations.

Times are modelled as integers (a `now` parameter); the persisted store
is a list of records; Go maps are association lists with unique keys
maintained by erase-then-insert; the outcomes of external effects
(network probes, SSH commands, Xray engine calls) are oracle parameters.
-/

namespace L2TP

/-- Persisted endpoint record, mirroring `database.L2TPServer`
(`internal/database/database.go`).  `IsExpired` is a derived runtime
field and is represented by the predicate `isExpired` instead. -/
structure L2TPServer where
  id : Nat
  name : String
  host : String
  port : Nat
  username : String
  password : String
  l2tpPort : Nat
  psk : String
  users : String
  status : String
  expireDate : Int
  createdAt : Int
  updatedAt : Int
deriving Repr, DecidableEq

/-- `time.Now().After(server.ExpireDate)`: strict comparison. -/
def isExpired (now : Int) (s : L2TPServer) : Bool :=
  s.expireDate < now

/-- A background goroutine spawned by a lifecycle operation
(`go s.asyncStartServer`, `go s.asyncStopServer`,
`go s.asyncRestartServer`). -/
inductive AsyncOp where
  | startOp (id : Nat)
  | stopOp (id : Nat)
  | restartThenStart (id : Nat)
deriving Repr, DecidableEq

/-- Result of a synchronous lifecycle request: the returned error (if
any), the persisted store after the request returns, and the background
operations spawned by it. -/
structure OpOutcome where
  err : Option String
  store : List L2TPServer
  spawned : List AsyncOp
deriving Repr, DecidableEq

/-- `L2TPService.CreateServer` (`internal/services/l2tp.go`): inside one
transaction, count records with the same `l2tp_port`; if any exist
return a port-conflict error, otherwise force `Status = "stopped"`,
fresh `CreatedAt`/`UpdatedAt`, and insert. -/
def createServer (store : List L2TPServer) (now : Int) (server : L2TPServer) : OpOutcome :=
  if 0 < store.countP (fun r => r.l2tpPort == server.l2tpPort) then
    ⟨some ("中转端口 " ++ toString server.l2tpPort ++ " 已被使用"), store, []⟩
  else
    ⟨none, store ++ [{ server with status := "stopped", createdAt := now, updatedAt := now }], []⟩

/-- `L2TPService.GetServer`: look the record up by id. -/
def getServer (store : List L2TPServer) (id : Nat) : Except String L2TPServer :=
  match store.find? (fun r => r.id == id) with
  | none => .error "服务器不存在"
  | some s => .ok s

/-- `L2TPService.updateServerStatus`: update `status` and `updated_at`
of the matching record; error when no row is affected. -/
def updateServerStatus (store : List L2TPServer) (now : Int) (id : Nat) (status : String) :
    Except String (List L2TPServer) :=
  if store.any (fun r => r.id == id) then
    .ok (store.map (fun r =>
      if r.id == id then { r with status := status, updatedAt := now } else r))
  else
    .error "服务器不存在或状态未更新"

/-- `L2TPService.StartServer`: reject when `running` or `starting` or
expired; otherwise flip the status to `starting` and spawn the
asynchronous start goroutine. -/
def startServer (store : List L2TPServer) (now : Int) (id : Nat) : OpOutcome :=
  match getServer store id with
  | .error e => ⟨some e, store, []⟩
  | .ok server =>
    if server.status = "running" then ⟨some "服务器已在运行中", store, []⟩
    else if server.status = "starting" then ⟨some "服务器正在启动中，请稍候", store, []⟩
    else if isExpired now server then ⟨some "服务器已过期，无法启动", store, []⟩
    else
      match updateServerStatus store now id "starting" with
      | .error e => ⟨some ("更新服务器状态失败: " ++ e), store, []⟩
      | .ok store2 => ⟨none, store2, [AsyncOp.startOp id]⟩

/-- `L2TPService.StopServer`: reject when `stopped` or `stopping`;
otherwise flip the status to `stopping` and spawn the asynchronous stop
goroutine. -/
def stopServer (store : List L2TPServer) (now : Int) (id : Nat) : OpOutcome :=
  match getServer store id with
  | .error e => ⟨some e, store, []⟩
  | .ok server =>
    if server.status = "stopped" then ⟨some "服务器已停止", store, []⟩
    else if server.status = "stopping" then ⟨some "服务器正在停止中，请稍候", store, []⟩
    else
      match updateServerStatus store now id "stopping" with
      | .error e => ⟨some ("更新服务器状态失败: " ++ e), store, []⟩
      | .ok store2 => ⟨none, store2, [AsyncOp.stopOp id]⟩

/-- `L2TPService.RestartServer`: when `running`, call `StopServer` and
additionally spawn `asyncRestartServer`; in every other case delegate to
`StartServer`. -/
def restartServer (store : List L2TPServer) (now : Int) (id : Nat) : OpOutcome :=
  match getServer store id with
  | .error e => ⟨some e, store, []⟩
  | .ok server =>
    if server.status = "running" then
      let stopRes := stopServer store now id
      match stopRes.err with
      | some e => ⟨some e, stopRes.store, stopRes.spawned⟩
      | none => ⟨none, stopRes.store, stopRes.spawned ++ [AsyncOp.restartThenStart id]⟩
    else
      startServer store now id

/-- In-memory traffic statistics record, mirroring
`services.TrafficStats` (`internal/services/routing.go`); the per-record
mutex is irrelevant in the sequential embedding. -/
structure TrafficStats where
  bytesSent : Int
  bytesReceived : Int
  packetsSent : Int
  packetsReceived : Int
  lastUpdate : Int
deriving Repr, DecidableEq

/-- The four traffic counters of a record, without the timestamp. -/
def counters (s : TrafficStats) : Int × Int × Int × Int :=
  (s.bytesSent, s.bytesReceived, s.packetsSent, s.packetsReceived)

/-- `RoutingService.updateStats`: when the key is present, add the four
deltas to its counters and refresh `LastUpdate`; absent keys are left
alone. -/
def updateStats (m : List (String × TrafficStats)) (key : String)
    (bs br ps pr : Int) (now : Int) : List (String × TrafficStats) :=
  m.map (fun e =>
    if e.1 == key then
      (e.1, { e.2 with
                bytesSent := e.2.bytesSent + bs,
                bytesReceived := e.2.bytesReceived + br,
                packetsSent := e.2.packetsSent + ps,
                packetsReceived := e.2.packetsReceived + pr,
                lastUpdate := now })
    else e)

/-- `RoutingService.estimateTraffic`: the 10-second telemetry tick; when
the key is present it only refreshes `LastUpdate`. -/
def estimateTraffic (m : List (String × TrafficStats)) (key : String) (now : Int) :
    List (String × TrafficStats) :=
  m.map (fun e => if e.1 == key then (e.1, { e.2 with lastUpdate := now }) else e)

/-- The Xray instance registry `xrayInstances : map[int]*core.Instance`:
an association list from listen port to an instance handle; a stored
`none` models a stored nil pointer.  Instance handles are opaque ids. -/
abbrev InstanceMap := List (Nat × Option Nat)

/-- Go map read `r.xrayInstances[port]`. -/
def lookupInstances (m : InstanceMap) (port : Nat) : Option (Option Nat) :=
  match m.find? (fun e => e.1 == port) with
  | some e => some e.2
  | none => none

/-- Go map `delete(r.xrayInstances, port)`. -/
def eraseInstances (m : InstanceMap) (port : Nat) : InstanceMap :=
  m.filter (fun e => !(e.1 == port))

/-- Stats-map key `fmt.Sprintf("%s:%d", host, port)`. -/
def statsKeyOf (host : String) (port : Nat) : String :=
  host ++ ":" ++ toString port

/-- The create-if-absent stats initialisation in `startXrayForwarder`. -/
def ensureStats (m : List (String × TrafficStats)) (key : String) (now : Int) :
    List (String × TrafficStats) :=
  match m.find? (fun e => e.1 == key) with
  | some _ => m
  | none => m ++ [(key, ⟨0, 0, 0, 0, now⟩)]

/-- The mutable state of `RoutingService` that `startXrayForwarder`
touches: the instance registry and the traffic-stats map. -/
structure RoutingState where
  xrayInstances : InstanceMap
  trafficStats : List (String × TrafficStats)
deriving Repr, DecidableEq

/-- Outcomes of the external effects performed by `startXrayForwarder`:
whether the UDP and TCP listen probes find the port free, whether
`core.New` succeeds, whether `instance.Start` succeeds, and whether
`verifyXrayInstance` succeeds. -/
structure FwdEnv where
  udpFree : Bool
  tcpFree : Bool
  newOk : Bool
  startOk : Bool
  verifyOk : Bool
deriving Repr, DecidableEq

/-- Observable actions of `startXrayForwarder`, in execution order. -/
inductive FwdEvent where
  | probePort (port : Nat)
  | closeInst (inst : Nat)
  | removeReg (port : Nat)
  | createStats (key : String)
  | createInst (inst : Nat)
  | startInst (inst : Nat)
  | verifyProbe (port : Nat)
  | register (port : Nat) (inst : Nat)
deriving Repr, DecidableEq

/-- Result of one `startXrayForwarder` call: the returned error (if
any), the routing state after the call, and the trace of actions. -/
structure FwdResult where
  err : Option String
  state : RoutingState
  events : List FwdEvent
deriving Repr, DecidableEq

/-- `RoutingService.checkPortAvailable`: bind a UDP socket, then a TCP
listener, on the port; the first failure yields a descriptive error. -/
def checkPortAvailable (udpFree tcpFree : Bool) (port : Nat) : Option String :=
  if !udpFree then some ("UDP端口 " ++ toString port ++ " 被占用")
  else if !tcpFree then some ("TCP端口 " ++ toString port ++ " 被占用")
  else none

/-- `RoutingService.startXrayForwarder`: probe the port; tear down and
deregister any existing instance for the port; create the stats record
if absent; create, start and verify a fresh Xray instance, closing it
and propagating an error on failure; only on full success register it.
`fresh` is the handle `core.New` would return. -/
def startXrayForwarder (env : FwdEnv) (fresh : Nat) (now : Int)
    (st : RoutingState) (listenPort : Nat) (host : String) : FwdResult :=
  match checkPortAvailable env.udpFree env.tcpFree listenPort with
  | some e =>
    ⟨some ("端口 " ++ toString listenPort ++ " 不可用: " ++ e), st, [FwdEvent.probePort listenPort]⟩
  | none =>
    let cleaned : RoutingState × List FwdEvent :=
      match lookupInstances st.xrayInstances listenPort with
      | some (some old) =>
        (⟨eraseInstances st.xrayInstances listenPort, st.trafficStats⟩,
         [FwdEvent.probePort listenPort, FwdEvent.closeInst old, FwdEvent.removeReg listenPort])
      | some none =>
        (⟨eraseInstances st.xrayInstances listenPort, st.trafficStats⟩,
         [FwdEvent.probePort listenPort, FwdEvent.removeReg listenPort])
      | none => (st, [FwdEvent.probePort listenPort])
    let st1 : RoutingState := cleaned.1
    let key := statsKeyOf host listenPort
    let st2 : RoutingState := ⟨st1.xrayInstances, ensureStats st1.trafficStats key now⟩
    let evs2 := cleaned.2 ++ [FwdEvent.createStats key]
    if !env.newOk then ⟨some "创建Xray实例失败", st2, evs2⟩
    else
      let evs3 := evs2 ++ [FwdEvent.createInst fresh]
      if !env.startOk then
        ⟨some "启动Xray实例失败", st2, evs3 ++ [FwdEvent.startInst fresh, FwdEvent.closeInst fresh]⟩
      else
        let evs4 := evs3 ++ [FwdEvent.startInst fresh]
        if !env.verifyOk then
          ⟨some "验证Xray实例失败", st2,
           evs4 ++ [FwdEvent.verifyProbe listenPort, FwdEvent.closeInst fresh]⟩
        else
          ⟨none, ⟨st2.xrayInstances ++ [(listenPort, some fresh)], st2.trafficStats⟩,
           evs4 ++ [FwdEvent.verifyProbe listenPort, FwdEvent.register listenPort fresh]⟩

/-- Actions of one health-monitor sweep (`checkXrayInstances`). -/
inductive SweepAction where
  | recreate (port : Nat)
  | teardownRecreate (port : Nat) (inst : Nat)
deriving Repr, DecidableEq

/-- The listen port a sweep action concerns. -/
def actionPort : SweepAction → Nat
  | .recreate p => p
  | .teardownRecreate p _ => p

/-- Body of the `checkXrayInstances` loop for one `(port, status)`
entry of `r.servers`: only `running` endpoints are acted on; a missing
or nil instance is recreated; a registered instance failing the
liveness probe (`healthy port = false`) is closed, deregistered and
recreated. -/
def sweepOne (healthy : Nat → Bool) (instances : InstanceMap)
    (entry : Nat × String) : List SweepAction :=
  if entry.2 = "running" then
    match lookupInstances instances entry.1 with
    | none => [SweepAction.recreate entry.1]
    | some none => [SweepAction.recreate entry.1]
    | some (some inst) =>
      if healthy entry.1 then [] else [SweepAction.teardownRecreate entry.1 inst]
  else []

/-- `RoutingService.checkXrayInstances`: the 15-second sweep over the
server snapshot. -/
def checkXrayInstances (healthy : Nat → Bool) (instances : InstanceMap)
    (servers : List (Nat × String)) : List SweepAction :=
  servers.flatMap (sweepOne healthy instances)

/-- Outcomes of the SSH commands run by
`SSHService.StartL2TPContainerWithCallback` (`internal/services/ssh.go`):
connection, Docker check/install, user-config parse, image pull,
`docker run`, and the combined output of the bounded
`docker events ... | head -n 1` readiness wait. -/
structure SSHEnv where
  sshOk : Bool
  dockerOk : Bool
  usersParseOk : Bool
  pullOk : Bool
  runOk : Bool
  eventsResult : Except String String
deriving Repr

/-- `SSHService.waitForContainerReady`: run the bounded (30s) event
wait; on command failure return nil, on a "start" event return nil, and
when no start event is observed also return nil. -/
def waitForContainerReady (cmdResult : Except String String) : Option String :=
  match cmdResult with
  | .error _ => none
  | .ok output =>
    if output.trim = "start" then none
    else none

/-- Result of the remote start sequence: the returned error (if any)
and the `(step, success)` pairs reported to the status callback. -/
structure StartSeqResult where
  err : Option String
  steps : List (String × Bool)
deriving Repr, DecidableEq

/-- `SSHService.StartL2TPContainerWithCallback`: the ordered remote
start sequence.  `cleanupExistingContainer` ignores the errors of its
two commands and always returns nil, so the `cleanup` step always
reports success. -/
def startL2TPContainerWithCallback (env : SSHEnv) : StartSeqResult :=
  if !env.sshOk then ⟨some "SSH连接失败", [("ssh_connect", false)]⟩
  else
    let t0 := [("ssh_connect", true)]
    if !env.dockerOk then ⟨some "Docker环境准备失败", t0 ++ [("docker_check", false)]⟩
    else
      let t1 := t0 ++ [("docker_check", true), ("cleanup", true)]
      if !env.usersParseOk then ⟨some "解析用户配置失败", t1 ++ [("config", false)]⟩
      else
        let t2 := t1 ++ [("config", true)]
        if !env.pullOk then ⟨some "拉取Docker镜像失败", t2 ++ [("image_pull", false)]⟩
        else
          let t3 := t2 ++ [("image_pull", true)]
          if !env.runOk then ⟨some "启动Docker容器失败", t3 ++ [("container_start", false)]⟩
          else
            let t4 := t3 ++ [("container_start", true)]
            match waitForContainerReady env.eventsResult with
            | some e => ⟨some ("容器启动验证失败: " ++ e), t4 ++ [("container_ready", false)]⟩
            | none => ⟨none, t4 ++ [("container_ready", true)]⟩

/-- Sample endpoint record used to instantiate theorems. -/
def sampleStopped : L2TPServer :=
  { id := 1, name := "a", host := "198.51.100.7", port := 22, username := "root",
    password := "pw", l2tpPort := 5000, psk := "k", users := "", status := "stopped",
    expireDate := 100, createdAt := 0, updatedAt := 0 }

/-- Sample record in state `stopping`. -/
def sampleStopping : L2TPServer := { sampleStopped with status := "stopping" }

/-- Sample record in state `starting`. -/
def sampleStarting : L2TPServer := { sampleStopped with status := "starting" }

/-- Sample record in state `running`. -/
def sampleRunning : L2TPServer := { sampleStopped with status := "running" }

/-- Second sample record requesting the same listen port as
`sampleStopped`. -/
def sampleSamePort : L2TPServer :=
  { sampleStopped with id := 2, name := "b", host := "198.51.100.8" }

/- ### Helper lemmas -/

theorem any_id_of_getServer {store : List L2TPServer} {id : Nat} {server : L2TPServer}
    (h : getServer store id = .ok server) :
    store.any (fun r => r.id == id) = true := by
  unfold getServer at h
  cases hf : store.find? (fun r => r.id == id) with
  | none => rw [hf] at h; exact absurd h (by simp)
  | some s =>
    have hp := List.find?_some hf
    have hmem := List.mem_of_find?_eq_some hf
    exact List.any_eq_true.mpr ⟨s, hmem, hp⟩

theorem lookupInstances_erase (m : InstanceMap) (port : Nat) :
    lookupInstances (eraseInstances m port) port = none := by
  unfold lookupInstances
  suffices h : (eraseInstances m port).find? (fun e => e.1 == port) = none by
    rw [h]
  rw [List.find?_eq_none]
  intro x hx
  have hpx := List.of_mem_filter hx
  simpa using hpx

/- ### Claim theorems -/

/-- C2: a create request whose listen port equals the listen port of a
stored record is rejected with a port-conflict error, and the store is
left unchanged with nothing spawned. -/
theorem createServer_port_conflict (store : List L2TPServer) (now : Int)
    (server r : L2TPServer) (hmem : r ∈ store) (hport : r.l2tpPort = server.l2tpPort) :
    (createServer store now server).err.isSome = true ∧
    (createServer store now server).store = store ∧
    (createServer store now server).spawned = [] := by
  have hcount : 0 < store.countP (fun x => x.l2tpPort == server.l2tpPort) :=
    List.countP_pos_iff.mpr ⟨r, hmem, by simp [hport]⟩
  simp [createServer, hcount]

/-- Witness for C2: creating a second record on port 5000 fails and
leaves the one-record store unchanged. -/
theorem createServer_port_conflict_witness :
    (createServer [sampleStopped] 7 sampleSamePort).err.isSome = true ∧
    (createServer [sampleStopped] 7 sampleSamePort).store = [sampleStopped] ∧
    (createServer [sampleStopped] 7 sampleSamePort).spawned = [] :=
  createServer_port_conflict [sampleStopped] 7 sampleSamePort sampleStopped
    (by simp) rfl

/-- C10: every record successfully created by `CreateServer` is stored
with status `stopped` and `CreatedAt = UpdatedAt = now`, regardless of
the status and timestamps supplied by the caller; all caller-controlled
configuration fields are kept. -/
theorem createServer_forces_stopped (store : List L2TPServer) (now : Int)
    (server : L2TPServer) (h : (createServer store now server).err = none) :
    ∃ rec : L2TPServer,
      (createServer store now server).store = store ++ [rec] ∧
      rec.status = "stopped" ∧ rec.createdAt = now ∧ rec.updatedAt = now ∧
      rec.id = server.id ∧ rec.name = server.name ∧ rec.host = server.host ∧
      rec.l2tpPort = server.l2tpPort ∧ rec.psk = server.psk ∧
      rec.users = server.users ∧ rec.expireDate = server.expireDate := by
  by_cases hc : 0 < store.countP (fun x => x.l2tpPort == server.l2tpPort)
  · unfold createServer at h
    rw [if_pos hc] at h
    exact absurd h (by simp)
  · unfold createServer
    rw [if_neg hc]
    exact ⟨{ server with status := "stopped", createdAt := now, updatedAt := now },
      rfl, rfl, rfl, rfl, rfl, rfl, rfl, rfl, rfl, rfl, rfl⟩

/-- Witness for C10: creating a record that claims status `running` at
time 7 stores it as `stopped` with both timestamps 7. -/
theorem createServer_forces_stopped_witness :
    ∃ rec : L2TPServer,
      (createServer [] 7 sampleRunning).store = [] ++ [rec] ∧
      rec.status = "stopped" ∧ rec.createdAt = 7 ∧ rec.updatedAt = 7 ∧
      rec.id = sampleRunning.id ∧ rec.name = sampleRunning.name ∧
      rec.host = sampleRunning.host ∧ rec.l2tpPort = sampleRunning.l2tpPort ∧
      rec.psk = sampleRunning.psk ∧ rec.users = sampleRunning.users ∧
      rec.expireDate = sampleRunning.expireDate :=
  createServer_forces_stopped [] 7 sampleRunning rfl

/-- C9: for an endpoint whose expiry date lies in the past, StartServer
returns an error, leaves the persisted store unchanged and spawns no
background operation; when the endpoint is not already rejected by the
`running`/`starting` guards, the error is the dedicated expiry error. -/
theorem startServer_expired_rejected (store : List L2TPServer) (now : Int) (id : Nat)
    (server : L2TPServer) (hget : getServer store id = .ok server)
    (hexp : isExpired now server = true) :
    (startServer store now id).err.isSome = true ∧
    (startServer store now id).store = store ∧
    (startServer store now id).spawned = [] ∧
    (server.status ≠ "running" → server.status ≠ "starting" →
      (startServer store now id).err = some "服务器已过期，无法启动") := by
  unfold startServer
  rw [hget]
  by_cases h1 : server.status = "running" <;>
    by_cases h2 : server.status = "starting" <;>
      simp [h1, h2, hexp]

/-- Witness for C9: at time 200 the sample endpoint (expiry 100) cannot
be started and the expiry error is returned. -/
theorem startServer_expired_rejected_witness :
    (startServer [sampleStopped] 200 1).err.isSome = true ∧
    (startServer [sampleStopped] 200 1).store = [sampleStopped] ∧
    (startServer [sampleStopped] 200 1).spawned = [] ∧
    (sampleStopped.status ≠ "running" → sampleStopped.status ≠ "starting" →
      (startServer [sampleStopped] 200 1).err = some "服务器已过期，无法启动") :=
  startServer_expired_rejected [sampleStopped] 200 1 sampleStopped rfl rfl

/-- C7: on an endpoint whose persisted state is `stopped`,
RestartServer returns the very outcome of StartServer: the same result,
the same store update and the same spawned background operation. -/
theorem restartServer_stopped_eq_start (store : List L2TPServer) (now : Int) (id : Nat)
    (server : L2TPServer) (hget : getServer store id = .ok server)
    (hst : server.status = "stopped") :
    restartServer store now id = startServer store now id := by
  unfold restartServer
  rw [hget]
  simp [hst]

/-- Witness for C7 on the sample stopped endpoint. -/
theorem restartServer_stopped_eq_start_witness :
    restartServer [sampleStopped] 0 1 = startServer [sampleStopped] 0 1 :=
  restartServer_stopped_eq_start [sampleStopped] 0 1 sampleStopped rfl rfl

/-- C5: the readiness wait never fails — `waitForContainerReady`
returns nil on every possible command outcome, including a timeout
without an observed start event — and hence the remote start sequence
never reports a failed `container_ready` step. -/
theorem waitForContainerReady_never_fails (env : SSHEnv) :
    waitForContainerReady env.eventsResult = none ∧
    (startL2TPContainerWithCallback env).steps.countP
      (fun p => p.1 == "container_ready" && p.2 == false) = 0 := by
  have hw : ∀ r : Except String String, waitForContainerReady r = none := by
    intro r
    unfold waitForContainerReady
    cases r with
    | error e => rfl
    | ok o => simp
  refine ⟨hw env.eventsResult, ?_⟩
  rcases env with ⟨s, d, u, p, r, ev⟩
  unfold startL2TPContainerWithCallback
  rw [hw ev]
  cases s <;> cases d <;> cases u <;> cases p <;> cases r <;> simp

/-- C8: the 10-second telemetry tick preserves the key and all four
traffic counters of every stat record — it coincides with a zero-delta
call of the explicit update method, which is the only operation that
adds to the counters. -/
theorem estimateTraffic_touches_only_timestamp :
    (∀ (m : List (String × TrafficStats)) (key : String) (now : Int),
      (estimateTraffic m key now).map (fun e => (e.1, counters e.2)) =
        m.map (fun e => (e.1, counters e.2))) ∧
    (∀ (m : List (String × TrafficStats)) (key : String) (now : Int),
      estimateTraffic m key now = updateStats m key 0 0 0 0 now) := by
  constructor
  · intro m key now
    induction m with
    | nil => rfl
    | cons e m ih =>
      by_cases h : e.1 = key <;> simp [estimateTraffic, counters, h] at * <;> exact ih
  · intro m key now
    induction m with
    | nil => rfl
    | cons e m ih =>
      by_cases h : e.1 = key <;> simp [estimateTraffic, updateStats, h] at *

/-- Counterexample to C1: a start request arriving while the persisted
state is `stopping` is not rejected — it succeeds and spawns a second
background operation while the stop operation is still in flight. -/
theorem start_while_stopping_not_rejected :
    (startServer [sampleStopping] 0 1).err = none ∧
    (startServer [sampleStopping] 0 1).spawned = [AsyncOp.startOp 1] := by
  decide

/-- C1 (amended): a second start while `starting` and a second stop
while `stopping` are rejected synchronously with an error, leaving the
store unchanged and spawning nothing; but a start while `stopping` (not
expired) and a stop while `starting` are accepted and spawn a
background operation, so two remote operations for the same endpoint
can be in flight concurrently. -/
theorem transition_guards_amended (store : List L2TPServer) (now : Int) (id : Nat)
    (server : L2TPServer) (hget : getServer store id = .ok server) :
    (server.status = "starting" →
      (startServer store now id).err.isSome = true ∧
      (startServer store now id).store = store ∧
      (startServer store now id).spawned = []) ∧
    (server.status = "stopping" →
      (stopServer store now id).err.isSome = true ∧
      (stopServer store now id).store = store ∧
      (stopServer store now id).spawned = []) ∧
    (server.status = "stopping" → isExpired now server = false →
      (startServer store now id).err = none ∧
      (startServer store now id).spawned = [AsyncOp.startOp id]) ∧
    (server.status = "starting" →
      (stopServer store now id).err = none ∧
      (stopServer store now id).spawned = [AsyncOp.stopOp id]) := by
  have hany := any_id_of_getServer hget
  refine ⟨?_, ?_, ?_, ?_⟩
  · intro h
    unfold startServer
    rw [hget]
    simp [h]
  · intro h
    unfold stopServer
    rw [hget]
    simp [h]
  · intro h hexp
    unfold startServer
    rw [hget]
    simp [h, hexp, updateServerStatus, hany]
  · intro h
    unfold stopServer
    rw [hget]
    simp [h, updateServerStatus, hany]

/-- Witness for the amended C1: a second start while the sample
endpoint is `starting` is rejected and changes nothing. -/
theorem transition_guards_amended_witness :
    (startServer [sampleStarting] 0 1).err.isSome = true ∧
    (startServer [sampleStarting] 0 1).store = [sampleStarting] ∧
    (startServer [sampleStarting] 0 1).spawned = [] :=
  (transition_guards_amended [sampleStarting] 0 1 sampleStarting rfl).1 rfl

/-- C3: `startXrayForwarder` always begins with the port probe; a
failed UDP or TCP probe aborts with an error before anything is
launched or torn down (state untouched, trace is the bare probe); and
when an instance is already registered for the port, the first three
actions are probe, close-old, deregister-old — so the new instance is
neither created nor started before the old one is gone. -/
theorem startXrayForwarder_probe_then_teardown (env : FwdEnv) (fresh : Nat) (now : Int)
    (st : RoutingState) (listenPort : Nat) (host : String) :
    (startXrayForwarder env fresh now st listenPort host).events.head? =
      some (FwdEvent.probePort listenPort) ∧
    ((env.udpFree = false ∨ env.tcpFree = false) →
      (startXrayForwarder env fresh now st listenPort host).err.isSome = true ∧
      (startXrayForwarder env fresh now st listenPort host).state = st ∧
      (startXrayForwarder env fresh now st listenPort host).events =
        [FwdEvent.probePort listenPort]) ∧
    (∀ old : Nat, env.udpFree = true → env.tcpFree = true →
      lookupInstances st.xrayInstances listenPort = some (some old) →
      (startXrayForwarder env fresh now st listenPort host).events.take 3 =
        [FwdEvent.probePort listenPort, FwdEvent.closeInst old,
         FwdEvent.removeReg listenPort] ∧
      FwdEvent.createInst fresh ∉
        (startXrayForwarder env fresh now st listenPort host).events.take 3 ∧
      FwdEvent.startInst fresh ∉
        (startXrayForwarder env fresh now st listenPort host).events.take 3) := by
  rcases env with ⟨u, t, n, s, v⟩
  refine ⟨?_, ?_, ?_⟩
  · unfold startXrayForwarder checkPortAvailable
    cases u <;> cases t <;> try simp
    cases hl : lookupInstances st.xrayInstances listenPort with
    | none => cases n <;> cases s <;> cases v <;> simp
    | some o => cases o <;> cases n <;> cases s <;> cases v <;> simp
  · intro hfail
    unfold startXrayForwarder checkPortAvailable
    rcases hfail with h | h
    · subst h
      simp
    · subst h
      cases u <;> simp
  · intro old hu ht hl
    subst hu
    subst ht
    unfold startXrayForwarder checkPortAvailable
    rw [hl]
    cases n <;> cases s <;> cases v <;> simp

/-- Witness for C3, on a state with an old instance 3 registered for
port 4000 and every probe succeeding. -/
theorem startXrayForwarder_probe_then_teardown_witness :
    (startXrayForwarder ⟨true, true, true, true, true⟩ 7 0
        ⟨[(4000, some 3)], []⟩ 4000 "h").events.take 3 =
      [FwdEvent.probePort 4000, FwdEvent.closeInst 3, FwdEvent.removeReg 4000] ∧
    FwdEvent.createInst 7 ∉
      (startXrayForwarder ⟨true, true, true, true, true⟩ 7 0
        ⟨[(4000, some 3)], []⟩ 4000 "h").events.take 3 ∧
    FwdEvent.startInst 7 ∉
      (startXrayForwarder ⟨true, true, true, true, true⟩ 7 0
        ⟨[(4000, some 3)], []⟩ 4000 "h").events.take 3 :=
  (startXrayForwarder_probe_then_teardown ⟨true, true, true, true, true⟩ 7 0
    ⟨[(4000, some 3)], []⟩ 4000 "h").2.2 3 rfl rfl rfl

/-- C4: when the probes pass but instance creation, instance start or
the post-launch liveness probe fails, `startXrayForwarder` returns an
error, the registry holds no entry for the listen port, and any
instance created during the call has been closed. -/
theorem startXrayForwarder_no_halfstart (env : FwdEnv) (fresh : Nat) (now : Int)
    (st : RoutingState) (listenPort : Nat) (host : String)
    (hu : env.udpFree = true) (ht : env.tcpFree = true)
    (hfail : env.newOk = false ∨ env.startOk = false ∨ env.verifyOk = false) :
    (startXrayForwarder env fresh now st listenPort host).err.isSome = true ∧
    lookupInstances
      (startXrayForwarder env fresh now st listenPort host).state.xrayInstances
      listenPort = none ∧
    (FwdEvent.createInst fresh ∈ (startXrayForwarder env fresh now st listenPort host).events →
      FwdEvent.closeInst fresh ∈ (startXrayForwarder env fresh now st listenPort host).events) := by
  rcases env with ⟨u, t, n, s, v⟩
  simp only at hu ht hfail
  subst hu
  subst ht
  unfold startXrayForwarder checkPortAvailable
  cases hl : lookupInstances st.xrayInstances listenPort with
  | none =>
    cases n <;> cases s <;> cases v <;> simp_all [lookupInstances_erase]
  | some o =>
    cases o <;> cases n <;> cases s <;> cases v <;> simp_all [lookupInstances_erase]

/-- Witness for C4: with a liveness-probe failure the call errors out
and leaves no registration for port 4000. -/
theorem startXrayForwarder_no_halfstart_witness :
    (startXrayForwarder ⟨true, true, true, true, false⟩ 7 0
        ⟨[], []⟩ 4000 "h").err.isSome = true ∧
    lookupInstances
      (startXrayForwarder ⟨true, true, true, true, false⟩ 7 0
        ⟨[], []⟩ 4000 "h").state.xrayInstances 4000 = none ∧
    (FwdEvent.createInst 7 ∈ (startXrayForwarder ⟨true, true, true, true, false⟩ 7 0
        ⟨[], []⟩ 4000 "h").events →
      FwdEvent.closeInst 7 ∈ (startXrayForwarder ⟨true, true, true, true, false⟩ 7 0
        ⟨[], []⟩ 4000 "h").events) :=
  startXrayForwarder_no_halfstart ⟨true, true, true, true, false⟩ 7 0
    ⟨[], []⟩ 4000 "h" rfl rfl (Or.inr (Or.inr rfl))

theorem actionPort_of_mem_sweepOne {healthy : Nat → Bool} {instances : InstanceMap}
    {entry : Nat × String} {a : SweepAction} (h : a ∈ sweepOne healthy instances entry) :
    actionPort a = entry.1 := by
  unfold sweepOne at h
  by_cases hr : entry.2 = "running"
  · rw [if_pos hr] at h
    cases hl : lookupInstances instances entry.1 with
    | none =>
      rw [hl] at h
      simp at h
      simp [h, actionPort]
    | some o =>
      rw [hl] at h
      cases o with
      | none =>
        simp at h
        simp [h, actionPort]
      | some inst =>
        by_cases hh : healthy entry.1 <;> simp [hh] at h
        simp [h, actionPort]
  · rw [if_neg hr] at h
    cases h

theorem sweep_no_action_on_port {healthy : Nat → Bool} {instances : InstanceMap}
    {servers : List (Nat × String)} {port : Nat} {status : String}
    (hmem : (port, status) ∈ servers) (hnd : (servers.map Prod.fst).Nodup)
    (hnil : sweepOne healthy instances (port, status) = []) :
    ∀ a ∈ checkXrayInstances healthy instances servers, actionPort a ≠ port := by
  intro a ha hport
  unfold checkXrayInstances at ha
  obtain ⟨entry, hentry, hain⟩ := List.mem_flatMap.mp ha
  have hep : entry.1 = port := by
    rw [← actionPort_of_mem_sweepOne hain, hport]
  have heq : entry = (port, status) :=
    List.inj_on_of_nodup_map hnd hentry hmem (by simpa using hep)
  rw [heq, hnil] at hain
  cases hain

/-- C6: the health sweep acts only on endpoints whose persisted state is
`running` — endpoints in `starting`, `stopping`, `error` or `stopped`
receive no action; a `running` endpoint with a missing or nil instance
gets its instance recreated; a `running` endpoint whose instance fails
the liveness probe gets it closed, deregistered and recreated; and a
`running` endpoint with a healthy instance is also left alone. -/
theorem checkXrayInstances_acts_only_on_running (healthy : Nat → Bool)
    (instances : InstanceMap) (servers : List (Nat × String))
    (port : Nat) (status : String) (hmem : (port, status) ∈ servers) :
    (status ≠ "running" → (servers.map Prod.fst).Nodup →
      ∀ a ∈ checkXrayInstances healthy instances servers, actionPort a ≠ port) ∧
    (status = "running" →
      (lookupInstances instances port = none ∨ lookupInstances instances port = some none) →
      SweepAction.recreate port ∈ checkXrayInstances healthy instances servers) ∧
    (status = "running" → ∀ inst : Nat,
      lookupInstances instances port = some (some inst) → healthy port = false →
      SweepAction.teardownRecreate port inst ∈ checkXrayInstances healthy instances servers) ∧
    (status = "running" → ∀ inst : Nat,
      lookupInstances instances port = some (some inst) → healthy port = true →
      (servers.map Prod.fst).Nodup →
      ∀ a ∈ checkXrayInstances healthy instances servers, actionPort a ≠ port) := by
  refine ⟨?_, ?_, ?_, ?_⟩
  · intro hne hnd
    exact sweep_no_action_on_port hmem hnd (by simp [sweepOne, hne])
  · intro hst hl
    refine List.mem_flatMap.mpr ⟨(port, status), hmem, ?_⟩
    rcases hl with hl | hl <;> simp [sweepOne, hst, hl]
  · intro hst inst hl hh
    refine List.mem_flatMap.mpr ⟨(port, status), hmem, ?_⟩
    simp [sweepOne, hst, hl, hh]
  · intro hst inst hl hh hnd
    exact sweep_no_action_on_port hmem hnd (by simp [sweepOne, hst, hl, hh])

/-- Witness for C6: in a two-endpoint snapshot with an empty registry,
the sweep recreates the instance of the `running` endpoint on
port 4000. -/
theorem checkXrayInstances_acts_only_on_running_witness :
    SweepAction.recreate 4000 ∈
      checkXrayInstances (fun _ => false) [] [(4000, "running"), (4001, "stopped")] :=
  (checkXrayInstances_acts_only_on_running (fun _ => false) [] [(4000, "running"), (4001, "stopped")]
    4000 "running" (by simp)).2.1 rfl (Or.inl rfl)

end L2TP
